import Mathlib

/-!
Verification of the workflow-graph executor and its RAG application
(src/main.py). Node functions, the grading classifier and the graph
wiring are embedded from the source; the graph execution engine
(builder, edge resolution, state merge, run loop) is the langgraph
library, which is not part of the repository source, and is therefore
modelled from the specification.
-/

namespace VeriFlow

/-- A value stored in a field of the graph state. The source's
`GraphState` has `question : str`, `generation : str`,
`documents : List[str]`. -/
inductive Value where
  | str : String → Value
  | strList : List String → Value
deriving DecidableEq

/-- Modelled from the spec: the State Record is an ordered mapping from
field name to value (a Python dict in the source's engine, which is not
under src/). -/
abbrev State := List (String × Value)

/-- First-match lookup in an ordered key-value list (Python dict access). -/
def lookupKey {α : Type} : List (String × α) → String → Option α
  | [], _ => none
  | kv :: rest, key => if kv.1 = key then some kv.2 else lookupKey rest key

/-- Field access on the state record. -/
def getField (s : State) (key : String) : Option Value :=
  lookupKey s key

/-- Modelled from the spec: dict-style insertion — overwrite the entry in
place when the key is present, append it otherwise. -/
def setField (s : State) (key : String) (v : Value) : State :=
  if s.any (fun kv => kv.1 = key) = true then
    s.map (fun kv => if kv.1 = key then (key, v) else kv)
  else s ++ [(key, v)]

/-- Modelled from the spec: the executor's left-biased overwrite merge —
every field present in the returned record `p` overwrites the
corresponding field of `s`; fields absent from `p` are left unchanged. -/
def mergeState (s : State) (p : State) : State :=
  p.foldl (fun acc kv => setField acc kv.1 kv.2) s

/-- Errors a node or classifier function can raise. `keyError` models a
Python `KeyError` on a missing state field; `external` models a failure
of an underlying external call. -/
inductive NodeError where
  | keyError : String → NodeError
  | external : String → NodeError
deriving DecidableEq

/-- `state[key]`: the value, or a raised `KeyError` when absent. -/
def lookupField (s : State) (key : String) : Except NodeError Value :=
  match getField s key with
  | some v => Except.ok v
  | none => Except.error (NodeError.keyError key)

/-- One result returned by the Tavily search tool; the source reads its
`content` string. -/
structure SearchResult where
  content : String
deriving DecidableEq

/-- The external world's answers for one executor step: the search tool's
results (used by `retrieve`), the generation LLM's output (`generate`),
the rewrite LLM's output (`transform_query`) and the structured grader's
`binary_score` field (the classifier). The engine quantifies over these. -/
structure StepOracle where
  searchResults : List SearchResult
  genOutput : String
  rewriteOutput : String
  binary_score : String

/-- A node function: `State → PartialState`, may raise. -/
abbrev NodeFn := StepOracle → State → Except NodeError State

/-- A classifier function: `State → Label`, may raise. -/
abbrev Classifier := StepOracle → State → Except NodeError String

/-- `retrieve` node from src/main.py: reads `question`, joins the content
of all search results with newlines, and returns a record whose
`documents` field is a one-element list holding the joined string. -/
def retrieve : NodeFn := fun o state =>
  match lookupField state "question" with
  | Except.error e => Except.error e
  | Except.ok question =>
    Except.ok
      [("documents",
        Value.strList [String.intercalate "\n" (o.searchResults.map SearchResult.content)]),
       ("question", question)]

/-- `generate` node from src/main.py: reads `question` and `documents`,
invokes the LLM, and returns all three fields, echoing `documents` and
`question` unchanged. -/
def generate : NodeFn := fun o state =>
  match lookupField state "question" with
  | Except.error e => Except.error e
  | Except.ok question =>
    match lookupField state "documents" with
    | Except.error e => Except.error e
    | Except.ok documents =>
      Except.ok
        [("documents", documents), ("question", question),
         ("generation", Value.str o.genOutput)]

/-- `transform_query` node from src/main.py: reads `question`, invokes
the rewrite LLM, and returns only the rewritten `question`. -/
def transform_query : NodeFn := fun o state =>
  match lookupField state "question" with
  | Except.error e => Except.error e
  | Except.ok _question =>
    Except.ok [("question", Value.str o.rewriteOutput)]

/-- Grading classifier from src/main.py: reads `question`, `documents`
and `generation`, obtains the structured grader's `binary_score`, and
returns label `"useful"` when the score is `"yes"`, `"not supported"`
otherwise. -/
def grade_generation_v_documents_and_question : Classifier := fun o state =>
  match lookupField state "question" with
  | Except.error e => Except.error e
  | Except.ok _question =>
    match lookupField state "documents" with
    | Except.error e => Except.error e
    | Except.ok _documents =>
      match lookupField state "generation" with
      | Except.error e => Except.error e
      | Except.ok _generation =>
        if o.binary_score = "yes" then Except.ok "useful"
        else Except.ok "not supported"

/-- Modelled from the spec: an edge target is either a node identifier or
the TERMINAL marker (langgraph's `END`, not under src/). -/
inductive Target where
  | node : String → Target
  | terminal : Target
deriving DecidableEq

/-- Modelled from the spec: an edge is direct (one successor) or
conditional (a classifier plus a label-to-successor map). -/
inductive Edge where
  | direct : Target → Edge
  | conditional : Classifier → List (String × Target) → Edge

/-- Errors raised while declaring or compiling the graph. -/
inductive BuildError where
  | duplicateNode : String → BuildError
  | duplicateEdge : String → BuildError
  | unknownNode : String → BuildError
  | missingEdge : String → BuildError
  | noEntry : BuildError

/-- Modelled from the spec: the graph under construction — node registry,
edge table and optional entry point (langgraph's `StateGraph`, not under
src/). -/
structure StateGraph where
  nodes : List (String × NodeFn)
  edges : List (String × Edge)
  entry : Option String

/-- An empty graph builder. -/
def StateGraph.empty : StateGraph := ⟨[], [], none⟩

/-- Modelled from the spec: node registration fails with
`DuplicateNodeError` when the identifier is already registered. -/
def StateGraph.add_node (w : StateGraph) (id : String) (fn : NodeFn) :
    Except BuildError StateGraph :=
  if (lookupKey w.nodes id).isSome then Except.error (BuildError.duplicateNode id)
  else Except.ok { w with nodes := w.nodes ++ [(id, fn)] }

/-- Modelled from the spec: set the entry node. -/
def StateGraph.set_entry_point (w : StateGraph) (id : String) : StateGraph :=
  { w with entry := some id }

/-- Modelled from the spec: adding a direct edge fails with
`DuplicateEdgeError` when the source already has an outgoing edge. -/
def StateGraph.add_edge (w : StateGraph) (src : String) (tgt : Target) :
    Except BuildError StateGraph :=
  if (lookupKey w.edges src).isSome then Except.error (BuildError.duplicateEdge src)
  else Except.ok { w with edges := w.edges ++ [(src, Edge.direct tgt)] }

/-- Modelled from the spec: adding a conditional edge fails with
`DuplicateEdgeError` when the source already has an outgoing edge. -/
def StateGraph.add_conditional_edges (w : StateGraph) (src : String)
    (classifier : Classifier) (labelMap : List (String × Target)) :
    Except BuildError StateGraph :=
  if (lookupKey w.edges src).isSome then Except.error (BuildError.duplicateEdge src)
  else Except.ok { w with edges := w.edges ++ [(src, Edge.conditional classifier labelMap)] }

/-- A compiled, validated, immutable graph. -/
structure Graph where
  entry : String
  nodes : List (String × NodeFn)
  edges : List (String × Edge)

/-- The targets an edge can resolve to. -/
def edgeTargets : Edge → List Target
  | Edge.direct t => [t]
  | Edge.conditional _ lm => lm.map Prod.snd

/-- A target is valid when it is TERMINAL or a registered node. -/
def targetOk (nodes : List (String × NodeFn)) : Target → Bool
  | Target.terminal => true
  | Target.node id => (lookupKey nodes id).isSome

/-- Modelled from the spec: compilation checks that the entry exists,
that every edge source and every non-terminal edge target is a
registered node, and that every node has an outgoing edge. No cycle
detection or termination analysis is performed. -/
def StateGraph.compile (w : StateGraph) : Except BuildError Graph :=
  match w.entry with
  | none => Except.error BuildError.noEntry
  | some entry =>
    if (lookupKey w.nodes entry).isSome = false then
      Except.error (BuildError.unknownNode entry)
    else
      match w.edges.find? (fun e => !(lookupKey w.nodes e.1).isSome) with
      | some e => Except.error (BuildError.unknownNode e.1)
      | none =>
        match w.edges.find? (fun e => !((edgeTargets e.2).all (targetOk w.nodes))) with
        | some e => Except.error (BuildError.unknownNode e.1)
        | none =>
          match w.nodes.find? (fun n => !(lookupKey w.edges n.1).isSome) with
          | some n => Except.error (BuildError.missingEdge n.1)
          | none => Except.ok ⟨entry, w.nodes, w.edges⟩

/-- Errors at edge-resolution time. -/
inductive ResolveError where
  | unhandledLabel : String → ResolveError
  | nodeError : NodeError → ResolveError
deriving DecidableEq

/-- Modelled from the spec: `resolve(from, state)` — a direct edge
returns its target with no state inspection and no classifier call; a
conditional edge invokes the classifier and looks the label up in the
label map, failing with `UnhandledLabelError` when the label is not a
key of the map. -/
def resolve (e : Edge) (o : StepOracle) (state : State) : Except ResolveError Target :=
  match e with
  | Edge.direct t => Except.ok t
  | Edge.conditional classifier labelMap =>
    match classifier o state with
    | Except.error err => Except.error (ResolveError.nodeError err)
    | Except.ok label =>
      match lookupKey labelMap label with
      | some t => Except.ok t
      | none => Except.error (ResolveError.unhandledLabel label)

/-- A run-time failure of one run. -/
inductive RunError where
  | nodeError : NodeError → RunError
  | unhandledLabel : String → RunError
  | unknownNode : String → RunError
  | missingEdge : String → RunError
deriving DecidableEq

/-- Modelled from the spec: the executor's state machine — `running`
(current node and state), `done` (successor resolved to TERMINAL),
`failed` (offending node id, error, state as of the last successful
merge). -/
inductive RunStatus where
  | running : String → State → RunStatus
  | done : State → RunStatus
  | failed : String → RunError → State → RunStatus

/-- Modelled from the spec: one executor step — apply the current node's
function, merge its returned record into the state, resolve the outgoing
edge, and either stop at TERMINAL, move to the successor, or fail. A
`done` or `failed` status is absorbing. -/
def execStep (g : Graph) (o : StepOracle) : RunStatus → RunStatus
  | RunStatus.running cur s =>
    match lookupKey g.nodes cur with
    | none => RunStatus.failed cur (RunError.unknownNode cur) s
    | some fn =>
      match fn o s with
      | Except.error e => RunStatus.failed cur (RunError.nodeError e) s
      | Except.ok p =>
        let s2 := mergeState s p
        match lookupKey g.edges cur with
        | none => RunStatus.failed cur (RunError.missingEdge cur) s2
        | some e =>
          match resolve e o s2 with
          | Except.error (ResolveError.nodeError ne) =>
            RunStatus.failed cur (RunError.nodeError ne) s2
          | Except.error (ResolveError.unhandledLabel l) =>
            RunStatus.failed cur (RunError.unhandledLabel l) s2
          | Except.ok Target.terminal => RunStatus.done s2
          | Except.ok (Target.node nxt) => RunStatus.running nxt s2
  | st => st

/-- Modelled from the spec: the status after `n` executor steps, the
step-`n` externals supplied by `o n`. -/
def runN (g : Graph) (o : Nat → StepOracle) (init : RunStatus) : Nat → RunStatus
  | 0 => init
  | n + 1 => execStep g (o n) (runN g o init n)

/-- The trace events one step emits: `(currentNodeID, mergedState)` when
the node function returns a record, nothing otherwise. -/
def stepEvents (g : Graph) (o : StepOracle) : RunStatus → List (String × State)
  | RunStatus.running cur s =>
    match lookupKey g.nodes cur with
    | none => []
    | some fn =>
      match fn o s with
      | Except.error _ => []
      | Except.ok p => [(cur, mergeState s p)]
  | _ => []

/-- Modelled from the spec: the trace after `n` steps, events in strict
execution order. -/
def traceN (g : Graph) (o : Nat → StepOracle) (init : RunStatus) : Nat → List (String × State)
  | 0 => []
  | n + 1 => traceN g o init n ++ stepEvents g (o n) (runN g o init n)

/-- The label map of the conditional edge after `generate`
(src/main.py, `workflow.add_conditional_edges`). -/
def labelMapGenerate : List (String × Target) :=
  [("useful", Target.terminal), ("not supported", Target.node "transform_query")]

/-- The graph build sequence of src/main.py. -/
def workflow : Except BuildError StateGraph := do
  let w := StateGraph.empty
  let w ← w.add_node "retrieve" retrieve
  let w ← w.add_node "generate" generate
  let w ← w.add_node "transform_query" transform_query
  let w := w.set_entry_point "retrieve"
  let w ← w.add_edge "retrieve" (Target.node "generate")
  let w ← w.add_edge "transform_query" (Target.node "retrieve")
  let w ← w.add_conditional_edges "generate"
    grade_generation_v_documents_and_question labelMapGenerate
  return w

/-- `app = workflow.compile()` from src/main.py. -/
def app : Except BuildError Graph :=
  workflow.bind StateGraph.compile

/-- The compiled graph that `app` evaluates to. -/
def appGraph : Graph :=
  { entry := "retrieve"
  , nodes := [("retrieve", retrieve), ("generate", generate),
              ("transform_query", transform_query)]
  , edges := [("retrieve", Edge.direct (Target.node "generate")),
              ("transform_query", Edge.direct (Target.node "retrieve")),
              ("generate", Edge.conditional grade_generation_v_documents_and_question
                labelMapGenerate)] }

/-- The initial state built from a user question (src/main.py,
`inputs = ...question...`). -/
def initState (q : String) : State := [("question", Value.str q)]

/-- The node the cyclic run visits at step position `i` of the
three-step cycle. -/
def cycleNode : Nat → String
  | 0 => "retrieve"
  | 1 => "generate"
  | _ => "transform_query"

/-- The record `retrieve` returns when the state holds `question = q`. -/
def retrieveRecord (o : StepOracle) (q : Value) : State :=
  [("documents",
    Value.strList [String.intercalate "\n" (o.searchResults.map SearchResult.content)]),
   ("question", q)]

/-- The record `generate` returns when the state holds `question = q`
and `documents = d`. -/
def generateRecord (o : StepOracle) (q d : Value) : State :=
  [("documents", d), ("question", q), ("generation", Value.str o.genOutput)]

/-- The record `transform_query` returns. -/
def transformRecord (o : StepOracle) : State :=
  [("question", Value.str o.rewriteOutput)]

/-! ### Concrete fixtures used by witnesses -/

/-- A state with all three fields present. -/
def fullState : State :=
  [("question", Value.str "q"), ("documents", Value.strList ["d"]),
   ("generation", Value.str "g")]

/-- A concrete oracle whose grader always answers `"no"`. -/
def constOracle : StepOracle :=
  { searchResults := [⟨"alpha"⟩, ⟨"beta"⟩], genOutput := "gen",
    rewriteOutput := "better question", binary_score := "no" }

/-- The constant oracle stream. -/
def constOracleSeq : Nat → StepOracle := fun _ => constOracle

/-- An oracle stream whose grader answers `"yes"` exactly on step 7. -/
def c4Oracle : Nat → StepOracle := fun n =>
  { searchResults := [⟨"alpha"⟩], genOutput := "gen",
    rewriteOutput := "better question",
    binary_score := if n = 7 then "yes" else "no" }

theorem app_eq : app = Except.ok appGraph := rfl

/-! ### Lemmas about lookup, insertion and merge -/

theorem lookupKey_eq_none_iff {α : Type} (s : List (String × α)) (k : String) :
    lookupKey s k = none ↔ k ∉ s.map Prod.fst := by
  induction s with
  | nil => simp [lookupKey]
  | cons hd tl ih =>
    by_cases hk : hd.1 = k
    · simp [lookupKey, hk]
    · have hk2 : ¬k = hd.1 := fun hh => hk hh.symm
      simp [lookupKey, hk, ih, hk2]

theorem lookupKey_append_single_of_none {α : Type} (s : List (String × α)) (k : String) (v : α)
    (h : lookupKey s k = none) : lookupKey (s ++ [(k, v)]) k = some v := by
  induction s with
  | nil => simp [lookupKey]
  | cons hd tl ih =>
    by_cases hk : hd.1 = k
    · simp [lookupKey, hk] at h
    · simp only [lookupKey, hk, if_false] at h
      simp only [List.cons_append, lookupKey, hk, if_false]
      exact ih h

theorem lookupKey_append_single_ne {α : Type} (s : List (String × α)) (k key' : String) (v : α)
    (h : key' ≠ k) : lookupKey (s ++ [(k, v)]) key' = lookupKey s key' := by
  induction s with
  | nil =>
    have hk2 : ¬k = key' := fun hh => h hh.symm
    simp [lookupKey, hk2]
  | cons hd tl ih =>
    by_cases hk : hd.1 = key'
    · simp [lookupKey, hk]
    · simp only [List.cons_append, lookupKey, hk, if_false]
      exact ih

theorem lookupKey_map_replace_self (s : State) (k : String) (v : Value)
    (h : s.any (fun kv => kv.1 = k) = true) :
    lookupKey (s.map (fun kv => if kv.1 = k then (k, v) else kv)) k = some v := by
  induction s with
  | nil => simp at h
  | cons hd tl ih =>
    by_cases hk : hd.1 = k
    · simp [lookupKey, hk]
    · have htl : tl.any (fun kv => kv.1 = k) = true := by
        simpa [List.any_cons, hk] using h
      simp only [List.map_cons, hk, if_false, lookupKey]
      exact ih htl

theorem lookupKey_map_replace_ne (s : State) (k key' : String) (v : Value)
    (h : key' ≠ k) :
    lookupKey (s.map (fun kv => if kv.1 = k then (k, v) else kv)) key' = lookupKey s key' := by
  induction s with
  | nil => rfl
  | cons hd tl ih =>
    by_cases hk : hd.1 = k
    · have hk' : ¬(k = key') := fun hh => h hh.symm
      have hd' : ¬(hd.1 = key') := by rw [hk]; exact hk'
      simp only [List.map_cons, hk, if_true, lookupKey, hk', if_false, hd']
      exact ih
    · simp only [List.map_cons, hk, if_false, lookupKey]
      by_cases hd' : hd.1 = key'
      · simp [hd']
      · simp only [hd', if_false]
        exact ih

theorem getField_setField_self (s : State) (k : String) (v : Value) :
    getField (setField s k v) k = some v := by
  unfold getField setField
  by_cases h : s.any (fun kv => kv.1 = k) = true
  · simp only [h, if_true]
    exact lookupKey_map_replace_self s k v h
  · simp only [h, if_false]
    have hnone : lookupKey s k = none := by
      rw [lookupKey_eq_none_iff]
      intro hmem
      apply h
      rw [List.any_eq_true]
      obtain ⟨kv, hkv, hfst⟩ := List.mem_map.mp hmem
      exact ⟨kv, hkv, by simp [hfst]⟩
    exact lookupKey_append_single_of_none s k v hnone

theorem getField_setField_ne (s : State) (k key' : String) (v : Value)
    (h : key' ≠ k) : getField (setField s k v) key' = getField s key' := by
  unfold getField setField
  by_cases ha : s.any (fun kv => kv.1 = k) = true
  · simp only [ha, if_true]
    exact lookupKey_map_replace_ne s k key' v h
  · simp only [ha, if_false]
    exact lookupKey_append_single_ne s k key' v h

theorem mergeState_nil (s : State) : mergeState s [] = s := rfl

theorem mergeState_cons (s : State) (kv : String × Value) (rest : State) :
    mergeState s (kv :: rest) = mergeState (setField s kv.1 kv.2) rest := rfl

theorem getField_mergeState_of_none (s p : State) (k : String)
    (h : lookupKey p k = none) : getField (mergeState s p) k = getField s k := by
  induction p generalizing s with
  | nil => rfl
  | cons hd tl ih =>
    by_cases hk : hd.1 = k
    · simp [lookupKey, hk] at h
    · simp only [lookupKey, hk, if_false] at h
      rw [mergeState_cons, ih _ h, getField_setField_ne]
      exact fun hh => hk hh.symm

theorem getField_mergeState_of_some (s p : State) (k : String) (v : Value)
    (hnd : (p.map Prod.fst).Nodup) (h : lookupKey p k = some v) :
    getField (mergeState s p) k = some v := by
  induction p generalizing s with
  | nil => simp [lookupKey] at h
  | cons hd tl ih =>
    rw [mergeState_cons]
    have hnd2 : hd.1 ∉ tl.map Prod.fst ∧ (tl.map Prod.fst).Nodup := by
      rw [List.map_cons, List.nodup_cons] at hnd
      exact hnd
    by_cases hk : hd.1 = k
    · simp only [lookupKey, hk, if_true, Option.some.injEq] at h
      have hnotmem : k ∉ tl.map Prod.fst := by
        have := hnd2.1
        rwa [hk] at this
      have htl : lookupKey tl k = none := (lookupKey_eq_none_iff tl k).mpr hnotmem
      rw [getField_mergeState_of_none _ _ _ htl, ← hk, ← h]
      exact getField_setField_self s hd.1 hd.2
    · simp only [lookupKey, hk, if_false] at h
      exact ih _ hnd2.2 h

theorem getField_setField_isSome (s : State) (k key' : String) (v : Value)
    (h : (getField s key').isSome) : (getField (setField s k v) key').isSome := by
  by_cases hk : key' = k
  · subst hk
    rw [getField_setField_self]
    rfl
  · rw [getField_setField_ne s k key' v hk]
    exact h

theorem getField_mergeState_isSome (s p : State) (k : String)
    (h : (getField s k).isSome) : (getField (mergeState s p) k).isSome := by
  induction p generalizing s with
  | nil => exact h
  | cons hd tl ih =>
    rw [mergeState_cons]
    exact ih _ (getField_setField_isSome s hd.1 k hd.2 h)

/-! ### The concrete graph: lookups and node evaluations -/

theorem appGraph_nodes_retrieve : lookupKey appGraph.nodes "retrieve" = some retrieve := rfl

theorem appGraph_nodes_generate : lookupKey appGraph.nodes "generate" = some generate := rfl

theorem appGraph_nodes_transform :
    lookupKey appGraph.nodes "transform_query" = some transform_query := rfl

theorem appGraph_edges_retrieve :
    lookupKey appGraph.edges "retrieve" = some (Edge.direct (Target.node "generate")) := rfl

theorem appGraph_edges_transform :
    lookupKey appGraph.edges "transform_query" = some (Edge.direct (Target.node "retrieve")) := rfl

theorem appGraph_edges_generate :
    lookupKey appGraph.edges "generate" =
      some (Edge.conditional grade_generation_v_documents_and_question labelMapGenerate) := rfl

theorem labelMap_useful : lookupKey labelMapGenerate "useful" = some Target.terminal := rfl

theorem labelMap_not_supported :
    lookupKey labelMapGenerate "not supported" = some (Target.node "transform_query") := rfl

theorem retrieve_ok (o : StepOracle) (s : State) (q : Value)
    (hq : getField s "question" = some q) :
    retrieve o s = Except.ok (retrieveRecord o q) := by
  unfold retrieve lookupField
  rw [hq]
  rfl

theorem generate_ok (o : StepOracle) (s : State) (q d : Value)
    (hq : getField s "question" = some q) (hd : getField s "documents" = some d) :
    generate o s = Except.ok (generateRecord o q d) := by
  unfold generate lookupField
  rw [hq, hd]
  rfl

theorem transform_query_ok (o : StepOracle) (s : State) (q : Value)
    (hq : getField s "question" = some q) :
    transform_query o s = Except.ok (transformRecord o) := by
  unfold transform_query lookupField
  rw [hq]
  rfl

theorem grade_ok (o : StepOracle) (s : State) (q d g : Value)
    (hq : getField s "question" = some q) (hd : getField s "documents" = some d)
    (hg : getField s "generation" = some g) :
    grade_generation_v_documents_and_question o s =
      (if o.binary_score = "yes" then Except.ok "useful" else Except.ok "not supported") := by
  unfold grade_generation_v_documents_and_question lookupField
  rw [hq, hd, hg]

theorem getField_merge_retrieveRecord_question (o : StepOracle) (s : State) (q : Value) :
    getField (mergeState s (retrieveRecord o q)) "question" = some q :=
  getField_mergeState_of_some s _ _ _ (of_decide_eq_true rfl) rfl

theorem getField_merge_retrieveRecord_documents (o : StepOracle) (s : State) (q : Value) :
    getField (mergeState s (retrieveRecord o q)) "documents" =
      some (Value.strList [String.intercalate "\n" (o.searchResults.map SearchResult.content)]) :=
  getField_mergeState_of_some s _ _ _ (of_decide_eq_true rfl) rfl

theorem getField_merge_generateRecord_question (o : StepOracle) (s : State) (q d : Value) :
    getField (mergeState s (generateRecord o q d)) "question" = some q :=
  getField_mergeState_of_some s _ _ _ (of_decide_eq_true rfl) rfl

theorem getField_merge_generateRecord_documents (o : StepOracle) (s : State) (q d : Value) :
    getField (mergeState s (generateRecord o q d)) "documents" = some d :=
  getField_mergeState_of_some s _ _ _ (of_decide_eq_true rfl) rfl

theorem getField_merge_generateRecord_generation (o : StepOracle) (s : State) (q d : Value) :
    getField (mergeState s (generateRecord o q d)) "generation" =
      some (Value.str o.genOutput) :=
  getField_mergeState_of_some s _ _ _ (of_decide_eq_true rfl) rfl

theorem getField_merge_transformRecord_question (o : StepOracle) (s : State) :
    getField (mergeState s (transformRecord o)) "question" =
      some (Value.str o.rewriteOutput) :=
  getField_mergeState_of_some s _ _ _ (of_decide_eq_true rfl) rfl

/-! ### Executor steps over the concrete graph -/

theorem execStep_retrieve (o : StepOracle) (s : State) (q : Value)
    (hq : getField s "question" = some q) :
    execStep appGraph o (RunStatus.running "retrieve" s) =
      RunStatus.running "generate" (mergeState s (retrieveRecord o q)) := by
  simp only [execStep, appGraph_nodes_retrieve, retrieve_ok o s q hq,
    appGraph_edges_retrieve, resolve]

theorem execStep_generate_not_supported (o : StepOracle) (s : State) (q d : Value)
    (hq : getField s "question" = some q) (hd : getField s "documents" = some d)
    (hns : o.binary_score ≠ "yes") :
    execStep appGraph o (RunStatus.running "generate" s) =
      RunStatus.running "transform_query" (mergeState s (generateRecord o q d)) := by
  have hcls : grade_generation_v_documents_and_question o
      (mergeState s (generateRecord o q d)) = Except.ok "not supported" := by
    rw [grade_ok o _ q d (Value.str o.genOutput)
      (getField_merge_generateRecord_question o s q d)
      (getField_merge_generateRecord_documents o s q d)
      (getField_merge_generateRecord_generation o s q d)]
    rw [if_neg hns]
  simp only [execStep, appGraph_nodes_generate, generate_ok o s q d hq hd,
    appGraph_edges_generate, resolve, hcls, labelMap_not_supported]

theorem execStep_generate_useful (o : StepOracle) (s : State) (q d : Value)
    (hq : getField s "question" = some q) (hd : getField s "documents" = some d)
    (hy : o.binary_score = "yes") :
    execStep appGraph o (RunStatus.running "generate" s) =
      RunStatus.done (mergeState s (generateRecord o q d)) := by
  have hcls : grade_generation_v_documents_and_question o
      (mergeState s (generateRecord o q d)) = Except.ok "useful" := by
    rw [grade_ok o _ q d (Value.str o.genOutput)
      (getField_merge_generateRecord_question o s q d)
      (getField_merge_generateRecord_documents o s q d)
      (getField_merge_generateRecord_generation o s q d)]
    rw [if_pos hy]
  simp only [execStep, appGraph_nodes_generate, generate_ok o s q d hq hd,
    appGraph_edges_generate, resolve, hcls, labelMap_useful]

theorem execStep_transform (o : StepOracle) (s : State) (q : Value)
    (hq : getField s "question" = some q) :
    execStep appGraph o (RunStatus.running "transform_query" s) =
      RunStatus.running "retrieve" (mergeState s (transformRecord o)) := by
  simp only [execStep, appGraph_nodes_transform, transform_query_ok o s q hq,
    appGraph_edges_transform, resolve]

theorem stepEvents_retrieve (o : StepOracle) (s : State) (q : Value)
    (hq : getField s "question" = some q) :
    stepEvents appGraph o (RunStatus.running "retrieve" s) =
      [("retrieve", mergeState s (retrieveRecord o q))] := by
  simp only [stepEvents, appGraph_nodes_retrieve, retrieve_ok o s q hq]

theorem stepEvents_generate (o : StepOracle) (s : State) (q d : Value)
    (hq : getField s "question" = some q) (hd : getField s "documents" = some d) :
    stepEvents appGraph o (RunStatus.running "generate" s) =
      [("generate", mergeState s (generateRecord o q d))] := by
  simp only [stepEvents, appGraph_nodes_generate, generate_ok o s q d hq hd]

theorem stepEvents_transform (o : StepOracle) (s : State) (q : Value)
    (hq : getField s "question" = some q) :
    stepEvents appGraph o (RunStatus.running "transform_query" s) =
      [("transform_query", mergeState s (transformRecord o))] := by
  simp only [stepEvents, appGraph_nodes_transform, transform_query_ok o s q hq]

theorem runN_zero (g : Graph) (o : Nat → StepOracle) (init : RunStatus) :
    runN g o init 0 = init := rfl

theorem runN_succ (g : Graph) (o : Nat → StepOracle) (init : RunStatus) (n : Nat) :
    runN g o init (n + 1) = execStep g (o n) (runN g o init n) := rfl

theorem traceN_zero (g : Graph) (o : Nat → StepOracle) (init : RunStatus) :
    traceN g o init 0 = [] := rfl

theorem traceN_succ (g : Graph) (o : Nat → StepOracle) (init : RunStatus) (n : Nat) :
    traceN g o init (n + 1) =
      traceN g o init n ++ stepEvents g (o n) (runN g o init n) := rfl

/-- One full self-correction cycle: from `retrieve` with a state holding a
question, when the grader rejects the generation, the run moves through
`generate` and `transform_query` back to `retrieve`, emitting exactly the
three corresponding trace events. -/
theorem run_cycle (o : Nat → StepOracle) (init : RunStatus) (n : Nat) (s : State) (q : Value)
    (hrun : runN appGraph o init n = RunStatus.running "retrieve" s)
    (hq : getField s "question" = some q)
    (hns : (o (n + 1)).binary_score ≠ "yes") :
    ∃ s1 s2 s3,
      runN appGraph o init (n + 1) = RunStatus.running "generate" s1 ∧
      runN appGraph o init (n + 2) = RunStatus.running "transform_query" s2 ∧
      runN appGraph o init (n + 3) = RunStatus.running "retrieve" s3 ∧
      traceN appGraph o init (n + 3) = traceN appGraph o init n ++
        [("retrieve", s1), ("generate", s2), ("transform_query", s3)] ∧
      getField s3 "question" = some (Value.str ((o (n + 2)).rewriteOutput)) := by
  have h1 : runN appGraph o init (n + 1) =
      RunStatus.running "generate" (mergeState s (retrieveRecord (o n) q)) := by
    rw [runN_succ, hrun, execStep_retrieve (o n) s q hq]
  have hq1 := getField_merge_retrieveRecord_question (o n) s q
  have hd1 := getField_merge_retrieveRecord_documents (o n) s q
  have h2 : runN appGraph o init (n + 2) =
      RunStatus.running "transform_query"
        (mergeState (mergeState s (retrieveRecord (o n) q))
          (generateRecord (o (n + 1)) q
            (Value.strList
              [String.intercalate "\n" ((o n).searchResults.map SearchResult.content)]))) := by
    rw [show n + 2 = (n + 1) + 1 from rfl, runN_succ, h1,
      execStep_generate_not_supported (o (n + 1)) _ q _ hq1 hd1 hns]
  have hq2 := getField_merge_generateRecord_question (o (n + 1))
    (mergeState s (retrieveRecord (o n) q)) q
    (Value.strList [String.intercalate "\n" ((o n).searchResults.map SearchResult.content)])
  have h3 : runN appGraph o init (n + 3) =
      RunStatus.running "retrieve"
        (mergeState
          (mergeState (mergeState s (retrieveRecord (o n) q))
            (generateRecord (o (n + 1)) q
              (Value.strList
                [String.intercalate "\n" ((o n).searchResults.map SearchResult.content)])))
          (transformRecord (o (n + 2)))) := by
    rw [show n + 3 = (n + 2) + 1 from rfl, runN_succ, h2, execStep_transform (o (n + 2)) _ q hq2]
  have hq3 := getField_merge_transformRecord_question (o (n + 2))
    (mergeState (mergeState s (retrieveRecord (o n) q))
      (generateRecord (o (n + 1)) q
        (Value.strList [String.intercalate "\n" ((o n).searchResults.map SearchResult.content)])))
  have t1 : traceN appGraph o init (n + 1) = traceN appGraph o init n ++
      [("retrieve", mergeState s (retrieveRecord (o n) q))] := by
    rw [traceN_succ, hrun, stepEvents_retrieve (o n) s q hq]
  have t2 : traceN appGraph o init (n + 2) = traceN appGraph o init (n + 1) ++
      [("generate", mergeState (mergeState s (retrieveRecord (o n) q))
        (generateRecord (o (n + 1)) q
          (Value.strList
            [String.intercalate "\n" ((o n).searchResults.map SearchResult.content)])))] := by
    rw [show n + 2 = (n + 1) + 1 from rfl, traceN_succ, h1,
      stepEvents_generate (o (n + 1)) _ q _ hq1 hd1]
  have t3 : traceN appGraph o init (n + 3) = traceN appGraph o init (n + 2) ++
      [("transform_query",
        mergeState
          (mergeState (mergeState s (retrieveRecord (o n) q))
            (generateRecord (o (n + 1)) q
              (Value.strList
                [String.intercalate "\n" ((o n).searchResults.map SearchResult.content)])))
          (transformRecord (o (n + 2))))] := by
    rw [show n + 3 = (n + 2) + 1 from rfl, traceN_succ, h2,
      stepEvents_transform (o (n + 2)) _ q hq2]
  refine ⟨_, _, _, h1, h2, h3, ?_, hq3⟩
  rw [t3, t2, t1]
  simp

/-! ### The claims -/

/-- C1: for every conditional edge and every state, when the classifier
returns label `l`, resolving the edge returns the label map's entry for
`l`, and fails with `UnhandledLabelError` when `l` is not a key of the
map; and in this graph the edge after `generate` is the conditional edge
with classifier `grade_generation_v_documents_and_question` and label
map `useful ↦ TERMINAL`, `not supported ↦ transform_query`. -/
theorem conditional_resolve_spec (cls : Classifier) (lm : List (String × Target))
    (o : StepOracle) (s : State) (l : String) (hcls : cls o s = Except.ok l) :
    (∀ t, lookupKey lm l = some t →
      resolve (Edge.conditional cls lm) o s = Except.ok t) ∧
    (lookupKey lm l = none →
      resolve (Edge.conditional cls lm) o s =
        Except.error (ResolveError.unhandledLabel l)) ∧
    lookupKey appGraph.edges "generate" =
      some (Edge.conditional grade_generation_v_documents_and_question labelMapGenerate) := by
  refine ⟨?_, ?_, rfl⟩
  · intro t ht
    simp only [resolve, hcls, ht]
  · intro hn
    simp only [resolve, hcls, hn]

theorem conditional_resolve_spec_witness :
    grade_generation_v_documents_and_question constOracle fullState =
      Except.ok "not supported" ∧
    resolve (Edge.conditional grade_generation_v_documents_and_question labelMapGenerate)
      constOracle fullState = Except.ok (Target.node "transform_query") :=
  ⟨rfl,
   (conditional_resolve_spec grade_generation_v_documents_and_question labelMapGenerate
     constOracle fullState "not supported" rfl).1 (Target.node "transform_query") rfl⟩

/-- C2: for every state with the three fields present and every grader
score, the classifier returns `"useful"` exactly when the score is
`"yes"` and `"not supported"` otherwise; its result is always a key of
the generate edge's label map, so resolving that edge never produces an
`UnhandledLabelError`. -/
theorem classifier_label_total (o : StepOracle) (s : State)
    (hq : (getField s "question").isSome) (hd : (getField s "documents").isSome)
    (hg : (getField s "generation").isSome) :
    grade_generation_v_documents_and_question o s =
      (if o.binary_score = "yes" then Except.ok "useful" else Except.ok "not supported") ∧
    (∀ l, grade_generation_v_documents_and_question o s = Except.ok l →
      (lookupKey labelMapGenerate l).isSome) ∧
    (∀ l, resolve (Edge.conditional grade_generation_v_documents_and_question labelMapGenerate)
      o s ≠ Except.error (ResolveError.unhandledLabel l)) := by
  obtain ⟨q, hq'⟩ := Option.isSome_iff_exists.mp hq
  obtain ⟨d, hd'⟩ := Option.isSome_iff_exists.mp hd
  obtain ⟨g, hg'⟩ := Option.isSome_iff_exists.mp hg
  have hgr := grade_ok o s q d g hq' hd' hg'
  refine ⟨hgr, ?_, ?_⟩
  · intro l hl
    rw [hgr] at hl
    by_cases hb : o.binary_score = "yes"
    · rw [if_pos hb] at hl
      simp only [Except.ok.injEq] at hl
      rw [← hl]
      rfl
    · rw [if_neg hb] at hl
      simp only [Except.ok.injEq] at hl
      rw [← hl]
      rfl
  · intro l hres
    simp only [resolve, hgr] at hres
    by_cases hb : o.binary_score = "yes"
    · rw [if_pos hb] at hres
      simp only [labelMap_useful] at hres
      exact Except.noConfusion hres
    · rw [if_neg hb] at hres
      simp only [labelMap_not_supported] at hres
      exact Except.noConfusion hres

theorem classifier_label_total_witness :
    (getField fullState "question").isSome ∧
    grade_generation_v_documents_and_question constOracle fullState =
      (if constOracle.binary_score = "yes"
        then Except.ok "useful" else Except.ok "not supported") :=
  ⟨rfl,
   (classifier_label_total constOracle fullState rfl rfl rfl).1⟩

/-- C3: the compiled graph's topology is exactly: entry `retrieve`;
`retrieve` has a direct edge to `generate`; `generate` has the
conditional edge with `useful ↦ TERMINAL` and
`not supported ↦ transform_query`; `transform_query` has a direct edge
back to `retrieve`; and these three nodes and three edges are all there
are. -/
theorem app_topology :
    app = Except.ok appGraph ∧
    appGraph.entry = "retrieve" ∧
    lookupKey appGraph.edges "retrieve" = some (Edge.direct (Target.node "generate")) ∧
    lookupKey appGraph.edges "generate" =
      some (Edge.conditional grade_generation_v_documents_and_question labelMapGenerate) ∧
    lookupKey labelMapGenerate "useful" = some Target.terminal ∧
    lookupKey labelMapGenerate "not supported" = some (Target.node "transform_query") ∧
    labelMapGenerate.map Prod.fst = ["useful", "not supported"] ∧
    lookupKey appGraph.edges "transform_query" = some (Edge.direct (Target.node "retrieve")) ∧
    appGraph.nodes.map Prod.fst = ["retrieve", "generate", "transform_query"] ∧
    appGraph.edges.map Prod.fst = ["retrieve", "transform_query", "generate"] :=
  ⟨rfl, rfl, rfl, rfl, rfl, rfl, rfl, rfl, rfl, rfl⟩

/-- C4: when the grader rejects the first two generations and accepts
the third, the run reaches DONE after 8 steps, and the trace is exactly
retrieve, generate, transform_query, retrieve, generate,
transform_query, retrieve, generate — 3 retrieve events, 3 generate
events, 2 transform_query events. -/
theorem self_correction_trace (q0 : String) (o : Nat → StepOracle)
    (h1 : (o 1).binary_score ≠ "yes") (h4 : (o 4).binary_score ≠ "yes")
    (h7 : (o 7).binary_score = "yes") :
    (traceN appGraph o (RunStatus.running "retrieve" (initState q0)) 8).map Prod.fst =
      ["retrieve", "generate", "transform_query", "retrieve", "generate",
       "transform_query", "retrieve", "generate"] ∧
    (∃ sf, runN appGraph o (RunStatus.running "retrieve" (initState q0)) 8 =
      RunStatus.done sf) ∧
    ((traceN appGraph o (RunStatus.running "retrieve" (initState q0)) 8).map
      Prod.fst).count "retrieve" = 3 ∧
    ((traceN appGraph o (RunStatus.running "retrieve" (initState q0)) 8).map
      Prod.fst).count "generate" = 3 ∧
    ((traceN appGraph o (RunStatus.running "retrieve" (initState q0)) 8).map
      Prod.fst).count "transform_query" = 2 := by
  obtain ⟨s1, s2, s3, r1, r2, r3, t3, hq3⟩ :=
    run_cycle o (RunStatus.running "retrieve" (initState q0)) 0 (initState q0)
      (Value.str q0) rfl rfl h1
  have r3' : runN appGraph o (RunStatus.running "retrieve" (initState q0)) 3 =
      RunStatus.running "retrieve" s3 := r3
  have t3' : traceN appGraph o (RunStatus.running "retrieve" (initState q0)) 3 =
      traceN appGraph o (RunStatus.running "retrieve" (initState q0)) 0 ++
      [("retrieve", s1), ("generate", s2), ("transform_query", s3)] := t3
  have hq3' : getField s3 "question" = some (Value.str ((o 2).rewriteOutput)) := hq3
  obtain ⟨s4, s5, s6, r4, r5, r6, t6, hq6⟩ :=
    run_cycle o (RunStatus.running "retrieve" (initState q0)) 3 s3
      (Value.str ((o 2).rewriteOutput)) r3' hq3' h4
  have r6' : runN appGraph o (RunStatus.running "retrieve" (initState q0)) 6 =
      RunStatus.running "retrieve" s6 := r6
  have t6' : traceN appGraph o (RunStatus.running "retrieve" (initState q0)) 6 =
      traceN appGraph o (RunStatus.running "retrieve" (initState q0)) 3 ++
      [("retrieve", s4), ("generate", s5), ("transform_query", s6)] := t6
  have hq6' : getField s6 "question" = some (Value.str ((o 5).rewriteOutput)) := hq6
  have hq7 := getField_merge_retrieveRecord_question (o 6) s6 (Value.str ((o 5).rewriteOutput))
  have hd7 := getField_merge_retrieveRecord_documents (o 6) s6 (Value.str ((o 5).rewriteOutput))
  have r7 : runN appGraph o (RunStatus.running "retrieve" (initState q0)) 7 =
      RunStatus.running "generate"
        (mergeState s6 (retrieveRecord (o 6) (Value.str ((o 5).rewriteOutput)))) := by
    rw [show (7 : Nat) = 6 + 1 from rfl, runN_succ, r6',
      execStep_retrieve (o 6) s6 (Value.str ((o 5).rewriteOutput)) hq6']
  have r8 : runN appGraph o (RunStatus.running "retrieve" (initState q0)) 8 =
      RunStatus.done
        (mergeState (mergeState s6 (retrieveRecord (o 6) (Value.str ((o 5).rewriteOutput))))
          (generateRecord (o 7) (Value.str ((o 5).rewriteOutput))
            (Value.strList
              [String.intercalate "\n" ((o 6).searchResults.map SearchResult.content)]))) := by
    rw [show (8 : Nat) = 7 + 1 from rfl, runN_succ, r7,
      execStep_generate_useful (o 7) _ (Value.str ((o 5).rewriteOutput)) _ hq7 hd7 h7]
  have t7 : traceN appGraph o (RunStatus.running "retrieve" (initState q0)) 7 =
      traceN appGraph o (RunStatus.running "retrieve" (initState q0)) 6 ++
      [("retrieve",
        mergeState s6 (retrieveRecord (o 6) (Value.str ((o 5).rewriteOutput))))] := by
    rw [show (7 : Nat) = 6 + 1 from rfl, traceN_succ, r6',
      stepEvents_retrieve (o 6) s6 (Value.str ((o 5).rewriteOutput)) hq6']
  have t8 : traceN appGraph o (RunStatus.running "retrieve" (initState q0)) 8 =
      traceN appGraph o (RunStatus.running "retrieve" (initState q0)) 7 ++
      [("generate",
        mergeState (mergeState s6 (retrieveRecord (o 6) (Value.str ((o 5).rewriteOutput))))
          (generateRecord (o 7) (Value.str ((o 5).rewriteOutput))
            (Value.strList
              [String.intercalate "\n" ((o 6).searchResults.map SearchResult.content)])))] := by
    rw [show (8 : Nat) = 7 + 1 from rfl, traceN_succ, r7,
      stepEvents_generate (o 7) _ (Value.str ((o 5).rewriteOutput)) _ hq7 hd7]
  have hmap : (traceN appGraph o (RunStatus.running "retrieve" (initState q0)) 8).map
      Prod.fst =
      ["retrieve", "generate", "transform_query", "retrieve", "generate",
       "transform_query", "retrieve", "generate"] := by
    rw [t8, t7, t6', t3', traceN_zero]
    simp
  refine ⟨hmap, ⟨_, r8⟩, ?_, ?_, ?_⟩ <;> rw [hmap] <;> decide

theorem self_correction_trace_witness :
    (c4Oracle 1).binary_score ≠ "yes" ∧
    (traceN appGraph c4Oracle (RunStatus.running "retrieve" (initState "q")) 8).map
      Prod.fst =
      ["retrieve", "generate", "transform_query", "retrieve", "generate",
       "transform_query", "retrieve", "generate"] :=
  ⟨of_decide_eq_true rfl,
   (self_correction_trace "q" c4Oracle (of_decide_eq_true rfl) (of_decide_eq_true rfl)
     (of_decide_eq_true rfl)).1⟩

/-- C5: the state merge is a left-biased overwrite — a field present in
the returned record takes its new value, a field absent from it is left
unchanged, and a field present in the state stays present after any
merge; in particular merging `transform_query`'s record (only
`question`) leaves `documents` and `generation` unchanged. -/
theorem merge_left_biased (s p : State) (k : String)
    (hnd : (p.map Prod.fst).Nodup) :
    (∀ v, lookupKey p k = some v → getField (mergeState s p) k = some v) ∧
    (lookupKey p k = none → getField (mergeState s p) k = getField s k) ∧
    ((getField s k).isSome → (getField (mergeState s p) k).isSome) ∧
    (∀ o st q, getField st "question" = some q →
      transform_query o st = Except.ok (transformRecord o) ∧
      getField (mergeState st (transformRecord o)) "documents" = getField st "documents" ∧
      getField (mergeState st (transformRecord o)) "generation" = getField st "generation") :=
  ⟨fun v hv => getField_mergeState_of_some s p k v hnd hv,
   fun hn => getField_mergeState_of_none s p k hn,
   fun hs => getField_mergeState_isSome s p k hs,
   fun o st q hq =>
     ⟨transform_query_ok o st q hq,
      getField_mergeState_of_none st (transformRecord o) "documents" rfl,
      getField_mergeState_of_none st (transformRecord o) "generation" rfl⟩⟩

theorem merge_left_biased_witness :
    ((([("b", Value.str "3")] : State).map Prod.fst).Nodup) ∧
    getField (mergeState [("a", Value.str "1"), ("b", Value.str "2")]
      [("b", Value.str "3")]) "b" = some (Value.str "3") ∧
    getField (mergeState [("a", Value.str "1"), ("b", Value.str "2")]
      [("b", Value.str "3")]) "a" = some (Value.str "1") := by
  refine ⟨by decide, ?_, ?_⟩
  · exact (merge_left_biased [("a", Value.str "1"), ("b", Value.str "2")]
      [("b", Value.str "3")] "b" (by decide)).1 (Value.str "3") rfl
  · rw [(merge_left_biased [("a", Value.str "1"), ("b", Value.str "2")]
      [("b", Value.str "3")] "a" (by decide)).2.1 rfl]
    rfl

/-- C6: the engine has no built-in iteration cap — with a grader that
never answers `"yes"`, after any number of steps the run is still
`RUNNING` (never `DONE`, never `FAILED`), cycling through retrieve,
generate, transform_query without bound. -/
theorem no_iteration_cap (q0 : String) (o : Nat → StepOracle)
    (hns : ∀ n, (o n).binary_score ≠ "yes") (n : Nat) :
    ∃ s, runN appGraph o (RunStatus.running "retrieve" (initState q0)) n =
      RunStatus.running (cycleNode (n % 3)) s := by
  have main : ∀ m, ∃ s,
      runN appGraph o (RunStatus.running "retrieve" (initState q0)) (3 * m) =
        RunStatus.running "retrieve" s ∧ ∃ q, getField s "question" = some q := by
    intro m
    induction m with
    | zero => exact ⟨initState q0, rfl, Value.str q0, rfl⟩
    | succ m ih =>
      obtain ⟨s, hrun, q, hq⟩ := ih
      obtain ⟨s1, s2, s3, _, _, h3, _, hq3⟩ :=
        run_cycle o (RunStatus.running "retrieve" (initState q0)) (3 * m) s q hrun hq
          (hns (3 * m + 1))
      refine ⟨s3, ?_, _, hq3⟩
      rw [show 3 * (m + 1) = 3 * m + 3 from by ring]
      exact h3
  obtain ⟨s, hrun, q, hq⟩ := main (n / 3)
  have hdecomp : n % 3 = 0 ∨ n % 3 = 1 ∨ n % 3 = 2 := by omega
  rcases hdecomp with h0 | h1 | h2
  · refine ⟨s, ?_⟩
    rw [h0]
    have hn : n = 3 * (n / 3) := by omega
    rw [hn]
    exact hrun
  · refine ⟨mergeState s (retrieveRecord (o (3 * (n / 3))) q), ?_⟩
    rw [h1]
    have hn : n = 3 * (n / 3) + 1 := by omega
    conv_lhs => rw [hn]
    rw [runN_succ, hrun, execStep_retrieve (o (3 * (n / 3))) s q hq]
    rfl
  · refine ⟨mergeState (mergeState s (retrieveRecord (o (3 * (n / 3))) q))
      (generateRecord (o (3 * (n / 3) + 1)) q
        (Value.strList
          [String.intercalate "\n"
            ((o (3 * (n / 3))).searchResults.map SearchResult.content)])), ?_⟩
    rw [h2]
    have hn : n = 3 * (n / 3) + 1 + 1 := by omega
    conv_lhs => rw [hn]
    rw [runN_succ, runN_succ, hrun, execStep_retrieve (o (3 * (n / 3))) s q hq]
    rw [execStep_generate_not_supported (o (3 * (n / 3) + 1)) _ q _
      (getField_merge_retrieveRecord_question (o (3 * (n / 3))) s q)
      (getField_merge_retrieveRecord_documents (o (3 * (n / 3))) s q)
      (hns (3 * (n / 3) + 1))]
    rfl

theorem no_iteration_cap_witness :
    (constOracleSeq 0).binary_score ≠ "yes" ∧
    (∃ s, runN appGraph constOracleSeq
      (RunStatus.running "retrieve" (initState "q")) 5 =
      RunStatus.running (cycleNode (5 % 3)) s) :=
  ⟨of_decide_eq_true rfl,
   no_iteration_cap "q" constOracleSeq (fun _ => of_decide_eq_true rfl) 5⟩

/-- C7: when the current node's function raises, the run immediately
becomes `FAILED` carrying that node's id, the error, and the state as of
the last successful merge (the failing node's output is never merged),
and the failed status is absorbing: the engine performs no retry. -/
theorem node_failure_semantics (g : Graph) (o : StepOracle) (oseq : Nat → StepOracle)
    (cur : String) (s : State) (fn : NodeFn) (e : NodeError)
    (hfn : lookupKey g.nodes cur = some fn)
    (herr : fn o s = Except.error e) :
    execStep g o (RunStatus.running cur s) =
      RunStatus.failed cur (RunError.nodeError e) s ∧
    (∀ m, runN g oseq (RunStatus.failed cur (RunError.nodeError e) s) m =
      RunStatus.failed cur (RunError.nodeError e) s) := by
  constructor
  · simp only [execStep, hfn, herr]
  · intro m
    induction m with
    | zero => rfl
    | succ m ih =>
      rw [runN_succ, ih]
      rfl

theorem node_failure_semantics_witness :
    retrieve constOracle [] = Except.error (NodeError.keyError "question") ∧
    execStep appGraph constOracle (RunStatus.running "retrieve" []) =
      RunStatus.failed "retrieve" (RunError.nodeError (NodeError.keyError "question")) [] ∧
    runN appGraph constOracleSeq
      (RunStatus.failed "retrieve" (RunError.nodeError (NodeError.keyError "question")) []) 2 =
      RunStatus.failed "retrieve" (RunError.nodeError (NodeError.keyError "question")) [] :=
  ⟨rfl,
   (node_failure_semantics appGraph constOracle constOracleSeq "retrieve" [] retrieve
     (NodeError.keyError "question") rfl rfl).1,
   (node_failure_semantics appGraph constOracle constOracleSeq "retrieve" [] retrieve
     (NodeError.keyError "question") rfl rfl).2 2⟩

/-- C8: resolving a direct edge never consults the state or any
classifier — its result is the same for all states and oracles — and in
this graph the successor of `retrieve` is always `generate` and the
successor of `transform_query` is always `retrieve`. -/
theorem direct_edge_state_independent (o o' : StepOracle) (s s' : State) (t : Target) :
    resolve (Edge.direct t) o s = Except.ok t ∧
    resolve (Edge.direct t) o s = resolve (Edge.direct t) o' s' ∧
    lookupKey appGraph.edges "retrieve" = some (Edge.direct (Target.node "generate")) ∧
    lookupKey appGraph.edges "transform_query" = some (Edge.direct (Target.node "retrieve")) ∧
    resolve (Edge.direct (Target.node "generate")) o s = Except.ok (Target.node "generate") ∧
    resolve (Edge.direct (Target.node "retrieve")) o s = Except.ok (Target.node "retrieve") :=
  ⟨rfl, rfl, rfl, rfl, rfl, rfl⟩

/-- C9: for every input state holding a question and every sequence of
search results, `retrieve` returns a record whose `documents` field is a
list of length exactly one, its single element the search results'
content strings joined with newlines. -/
theorem retrieve_collapses_documents (o : StepOracle) (s : State) (q : Value)
    (hq : getField s "question" = some q) :
    retrieve o s = Except.ok
      [("documents",
        Value.strList [String.intercalate "\n" (o.searchResults.map SearchResult.content)]),
       ("question", q)] ∧
    [String.intercalate "\n" (o.searchResults.map SearchResult.content)].length = 1 :=
  ⟨retrieve_ok o s q hq, rfl⟩

theorem retrieve_collapses_documents_witness :
    getField [("question", Value.str "w")] "question" = some (Value.str "w") ∧
    retrieve constOracle [("question", Value.str "w")] = Except.ok
      [("documents", Value.strList ["alpha\nbeta"]), ("question", Value.str "w")] := by
  refine ⟨rfl, ?_⟩
  rw [(retrieve_collapses_documents constOracle [("question", Value.str "w")]
    (Value.str "w") rfl).1]
  rfl

/-- C10: `generate` returns `question` and `documents` equal to its
input state's values, so merging its record changes only the
`generation` field of the state. -/
theorem generate_frame (o : StepOracle) (s : State) (q d : Value)
    (hq : getField s "question" = some q) (hd : getField s "documents" = some d) :
    generate o s = Except.ok
      [("documents", d), ("question", q), ("generation", Value.str o.genOutput)] ∧
    (∀ k, k ≠ "generation" →
      getField (mergeState s
        [("documents", d), ("question", q), ("generation", Value.str o.genOutput)]) k =
        getField s k) ∧
    getField (mergeState s
      [("documents", d), ("question", q), ("generation", Value.str o.genOutput)])
      "generation" = some (Value.str o.genOutput) := by
  refine ⟨generate_ok o s q d hq hd, ?_, getField_merge_generateRecord_generation o s q d⟩
  intro k hk
  rw [show mergeState s
      [("documents", d), ("question", q), ("generation", Value.str o.genOutput)] =
      setField (setField (setField s "documents" d) "question" q) "generation"
        (Value.str o.genOutput) from rfl]
  rw [getField_setField_ne _ _ _ _ hk]
  by_cases hkq : k = "question"
  · subst hkq
    rw [getField_setField_self, hq]
  · rw [getField_setField_ne _ _ _ _ hkq]
    by_cases hkd : k = "documents"
    · subst hkd
      rw [getField_setField_self, hd]
    · rw [getField_setField_ne _ _ _ _ hkd]

theorem generate_frame_witness :
    getField fullState "question" = some (Value.str "q") ∧
    generate constOracle fullState = Except.ok
      [("documents", Value.strList ["d"]), ("question", Value.str "q"),
       ("generation", Value.str "gen")] ∧
    getField (mergeState fullState
      [("documents", Value.strList ["d"]), ("question", Value.str "q"),
       ("generation", Value.str "gen")]) "documents" = getField fullState "documents" :=
  ⟨rfl,
   (generate_frame constOracle fullState (Value.str "q") (Value.strList ["d"]) rfl rfl).1,
   (generate_frame constOracle fullState (Value.str "q") (Value.strList ["d"]) rfl rfl).2.1
     "documents" (by decide)⟩

end VeriFlow
